import Mathlib

/-!
Shallow embedding of the CME-detection pipeline in `src/app.js`
(solar-wind plasma/magnetic-field ingestion, rolling buffers, rule-based
CME detection with dedup, z-score anomaly checks, EWMA forecasting, and
the export endpoint's limit handling).

JavaScript numbers are modelled as `ℚ` (all operations the claims touch
are field operations, comparisons and rounding); JS `null` is `Option`;
JS arrays are `List`.  `Math.round x` is `⌊x + 1/2⌋` (half-up, matching
JS including negatives).  A JS subtraction `a - null` evaluates to `a`
(null coerces to 0), which is modelled explicitly where it occurs.
-/

namespace CME

/-- `Math.round` in JS: round half toward positive infinity. -/
def jsRound (q : ℚ) : ℤ := ⌊q + 1/2⌋

/-- `Math.round(q*100)/100`, the two-decimal rounding used throughout `app.js`. -/
def round2 (q : ℚ) : ℚ := (jsRound (q * 100) : ℚ) / 100

/-- `clamp01` from `app.js`: `Math.max(0, Math.min(1, v))`. -/
def clamp01 (v : ℚ) : ℚ := max 0 (min 1 v)

/-- JS `ToIntegerOrInfinity` on a finite number: truncate toward zero
(used by `Array.prototype.slice`). -/
def jsTrunc (q : ℚ) : ℤ := if 0 ≤ q then ⌊q⌋ else ⌈q⌉

/-- `Array.prototype.slice(start)` (one-argument form): a negative start
counts from the end, clamped at 0; a nonnegative start is clamped at the
length. -/
def jsSlice {α : Type} (l : List α) (start : ℤ) : List α :=
  if start < 0 then l.drop ((l.length : ℤ) + start).toNat
  else l.drop (min start (l.length : ℤ)).toNat

/-- `detections.slice(-100)` keeps the most recent `n` entries. -/
def takeLast {α : Type} (n : ℕ) (l : List α) : List α := l.drop (l.length - n)

/-- An entry of `plasmaBuffer`: `{timeISO, density, speed, temp}` with
numeric fields degraded to `null` on parse failure. -/
structure PlasmaSample where
  timeISO : String
  density : Option ℚ
  speed : Option ℚ
  temp : Option ℚ
deriving DecidableEq

/-- An entry of `magBuffer`: `{timeISO, bx, by, bz}` (`by` is a Lean
keyword, hence the underscore). -/
structure MagSample where
  timeISO : String
  bx : Option ℚ
  by_ : Option ℚ
  bz : Option ℚ
deriving DecidableEq

/-- `BUFFER_MAX` in `app.js`. -/
def BUFFER_MAX : ℕ := 3000

/-- `DELTA_WINDOW` in `app.js`. -/
def DELTA_WINDOW : ℕ := 30

/-- `THRESHOLDS` in `app.js`. -/
def speed_high : ℚ := 500
def density_high : ℚ := 10
def bz_south : ℚ := -10
def deltaV_min : ℚ := 100

/-- `forecastArrivalHours` from `app.js`: `null` when speed is 0 or
negative, else `Math.round(AU_km / speed / 3600)`. -/
def forecastArrivalHours (speed : ℚ) : Option ℤ :=
  if speed ≤ 0 then none
  else some (jsRound (1495978707 / 10 / speed / 3600))

/-- `EWMA_ALPHA` and `FORECAST_STEPS` in `app.js`. -/
def EWMA_ALPHA : ℚ := 1/4
def FORECAST_STEPS : ℕ := 6

/-- `simpleEwmaForecast` from `app.js`: empty output for empty input,
else seed the EWMA with the first element, fold the rest with
`s <- alpha*x + (1-alpha)*s`, and emit `steps` copies of `round(s)`. -/
def simpleEwmaForecast (arr : List ℚ) (alpha : ℚ := EWMA_ALPHA)
    (steps : ℕ := FORECAST_STEPS) : List ℤ :=
  match arr with
  | [] => []
  | a :: rest =>
    let s := rest.foldl (fun s x => alpha * x + (1 - alpha) * s) a
    List.replicate steps (jsRound s)

/-- `intensityFromSpeed` from `app.js`. -/
def intensityFromSpeed (speed : ℚ) : String :=
  if speed > 3000 then "Very Strong"
  else if speed > 1500 then "Strong"
  else if speed > 1200 then "Moderate"
  else if speed > 400 then "Mild"
  else "Nominal"

/-- `computePdyn` from `app.js`: `1.6726e-6 * density * speed^2`, `null`
if either input is null. -/
def computePdyn (density speed : Option ℚ) : Option ℚ :=
  match density, speed with
  | some d, some s => some (16726 / 10 ^ 10 * d * (s * s))
  | _, _ => none

/-- `computeBzIntegral` from `app.js`: sum of `max(0, -bz)` over
`[max(0, idx-window+1), idx]`, skipping null `bz`, rounded to 2 decimals;
0 for an empty buffer. -/
def computeBzIntegral (magBuf : List MagSample) (idx window : ℕ) : ℚ :=
  if magBuf.length = 0 then 0
  else
    round2 (((List.range' (idx + 1 - window) (idx + 1 - (idx + 1 - window))).map
      (fun i => match (magBuf.get? i).bind MagSample.bz with
        | none => 0
        | some bzv => max 0 (-bzv))).sum)

/-- `computeScoreAndSeverity` from `app.js` (score part): normalized
weighted sum of features, clamped to `[0,1]`, before the 2-decimal
rounding applied at the call site. -/
def rawScore (speed density : ℚ) (bzOpt deltaV : Option ℚ) : ℚ :=
  let speedNorm := clamp01 ((speed - 400) / (2000 - 400))
  let densityNorm := clamp01 ((density - 2) / (50 - 2))
  let bzNorm := match bzOpt with
    | some bzv => if bzv < 0 then clamp01 ((-bzv) / 50) else 0
    | none => 0
  let deltaVNorm := match deltaV with
    | some dv => clamp01 (dv / 500)
    | none => 0
  max 0 (min 1 (35/100 * speedNorm + 30/100 * deltaVNorm +
                20/100 * densityNorm + 15/100 * bzNorm))

/-- Severity label thresholds from `computeScoreAndSeverity`. -/
def severityLabel (score : ℚ) : String :=
  if score > 75/100 then "Strong"
  else if score > 50/100 then "Moderate"
  else if score > 25/100 then "Mild"
  else "Nominal"

/-- Severity class thresholds from `computeScoreAndSeverity`. -/
def severityClass (score : ℚ) : String :=
  if score > 60/100 then "crit" else if score > 30/100 then "warn" else "info"

/-- The metrics checked by `detectAnomalyAt`. -/
inductive Metric where
  | speed
  | bz
  | density
deriving DecidableEq

/-- The data `zCheck` in `app.js` returns (`{z, mean, sd, cur}`): we keep
`cur`, `mean` and the population variance `varPop`; the source's
`sd = sqrt(varPop) || 1e-5` and `z = (cur - mean)/sd` are recovered from
these (see `ZData.triggered` and `triggered_iff_abs_z_gt_three`). -/
structure ZData where
  cur : ℚ
  mean : ℚ
  varPop : ℚ
deriving DecidableEq

/-- `|z| > 3` for `z = (cur-mean)/sd` with `sd = sqrt(varPop) || 1e-5`
(the JS `||` substitutes `1e-5` only when the square root is exactly 0),
expressed in squared, rational form: when `varPop = 0` it is
`(cur-mean)^2 > (3e-5)^2`, otherwise `(cur-mean)^2 > 9 * varPop`.
`triggered_iff_abs_z_gt_three` proves this matches the real-valued
formula of the source. -/
def ZData.triggered (d : ZData) : Bool :=
  if d.varPop = 0 then decide ((d.cur - d.mean) ^ 2 > (9 : ℚ) / 10 ^ 10)
  else decide ((d.cur - d.mean) ^ 2 > 9 * d.varPop)

/-- `zCheck` inside `detectAnomalyAt`: collect the non-null values of
`field` over indices `[s, idx)`, require at least 8, compute mean and
population variance, and pair them with the (non-null) current value. -/
def zCheck {α : Type} (arr : List α) (field : α → Option ℚ) (s idx : ℕ) :
    Option ZData :=
  let vals := (List.range' s (idx - s)).filterMap
    (fun j => (arr.get? j).bind field)
  if vals.length < 8 then none
  else
    let mean := vals.sum / (vals.length : ℚ)
    let varPop := (vals.map (fun b => (b - mean) ^ 2)).sum / (vals.length : ℚ)
    match (arr.get? idx).bind field with
    | none => none
    | some cur => some ⟨cur, mean, varPop⟩

/-- Result of `detectAnomalyAt`.  The source also stores, per trigger, a
display-rounded copy of the z-score; only which metrics triggered is kept
here (the z value involves a real square root and is used for display
only). -/
structure AnomalyOut where
  speed : Bool
  bz : Bool
  density : Bool
  triggers : List Metric
  isAnomaly : Bool
deriving DecidableEq

/-- `detectAnomalyAt` from `app.js`: z-score check of the three metrics
over the trailing 60-sample window `[max(0, idx-60), idx)`. -/
def detectAnomalyAt (plasma : List PlasmaSample) (mag : List MagSample)
    (idx : ℕ) : AnomalyOut :=
  let s := idx - 60
  let spdT := match zCheck plasma PlasmaSample.speed s idx with
    | some d => d.triggered
    | none => false
  let bzT := match zCheck mag MagSample.bz s idx with
    | some d => d.triggered
    | none => false
  let denT := match zCheck plasma PlasmaSample.density s idx with
    | some d => d.triggered
    | none => false
  let triggers := (if spdT then [Metric.speed] else []) ++
    (if bzT then [Metric.bz] else []) ++
    (if denT then [Metric.density] else [])
  { speed := spdT, bz := bzT, density := denT, triggers := triggers,
    isAnomaly := decide (triggers.length > 0) }

/-- The `deltaV` computation inside `runDetection` (`app.js` lines
149-153): with `j = i - DELTA_WINDOW`, when `j >= 0` and `plasmaBuffer[j]`
exists, `deltaV = speed - plasmaBuffer[j].speed`.  The JS subtraction
coerces a `null` stored speed to 0, so in that case `deltaV = speed`. -/
def deltaVAt (buf : List PlasmaSample) (speed : ℚ) (i window : ℕ) : Option ℚ :=
  if window ≤ i then
    match buf.get? (i - window) with
    | some q => some (speed - (q.speed.getD 0))
    | none => none
  else none

/-- `condDeltaV` in `runDetection`: `deltaV != null && deltaV > deltaV_min`. -/
def condDeltaV (dv : Option ℚ) : Bool :=
  match dv with
  | none => false
  | some v => decide (v > deltaV_min)

/-- The CME rule of `runDetection` (`app.js` lines 155-161). -/
def isCME (speed density bzv : ℚ) (dv : Option ℚ) : Bool :=
  (condDeltaV dv && (decide (speed > speed_high) || decide (density > density_high))) ||
  (decide (speed > speed_high) && decide (density > density_high) &&
   decide (bzv < bz_south))

/-- A detection record as built by `runDetection`. -/
structure Detection where
  id : String
  timeISO : String
  speed : ℚ
  density : ℚ
  bz : ℚ
  deltaV : Option ℤ
  forecast_arrival_hours : Option ℤ
  intensity : String
  pdyn : Option ℚ
  bz_integral : ℚ
  score : ℚ
  severity_label : String
  severity_class : String
  anomaly : AnomalyOut
deriving DecidableEq

/-- The candidate a single loop iteration of `runDetection` may build
(`app.js` lines 140-187, before the dedup test): skip when `speed`,
`density`, or `bz` at `i` is null (`magBuffer[i] || {}` yields a null
`bz` when the mag buffer is short), compute `deltaV`, and build the full
record when the CME rule fires. -/
def candidateAt (pbuf : List PlasmaSample) (mbuf : List MagSample) (i : ℕ) :
    Option Detection :=
  match pbuf.get? i with
  | none => none
  | some p =>
    let bzOpt := match mbuf.get? i with
      | some m => m.bz
      | none => none
    match p.speed, p.density, bzOpt with
    | some speed, some density, some bzv =>
      let dv := deltaVAt pbuf speed i DELTA_WINDOW
      if isCME speed density bzv dv then
        let score := round2 (rawScore speed density (some bzv) dv)
        some
          { id := p.timeISO ++ "_" ++ toString (jsRound speed),
            timeISO := p.timeISO,
            speed := speed,
            density := density,
            bz := bzv,
            deltaV := dv.map jsRound,
            forecast_arrival_hours := forecastArrivalHours speed,
            intensity := intensityFromSpeed speed,
            pdyn := (computePdyn (some density) (some speed)).map round2,
            bz_integral := computeBzIntegral mbuf i 60,
            score := score,
            severity_label := severityLabel score,
            severity_class := severityClass score,
            anomaly := detectAnomalyAt pbuf mbuf i }
      else none
    | _, _, _ => none

/-- The in-memory global state of `app.js`: `plasmaBuffer`, `magBuffer`,
`detections`. -/
structure AppState where
  plasma : List PlasmaSample
  mag : List MagSample
  detections : List Detection
deriving DecidableEq

/-- One iteration of the `runDetection` scan: keep the candidate unless
its id is already in the retained log or among this scan's new ones. -/
def detStep (pbuf : List PlasmaSample) (mbuf : List MagSample)
    (dets : List Detection) (acc : List Detection) (i : ℕ) : List Detection :=
  match candidateAt pbuf mbuf i with
  | none => acc
  | some d =>
    if dets.any (fun e => e.id = d.id) || acc.any (fun e => e.id = d.id) then acc
    else acc ++ [d]

/-- The full scan of `runDetection` collecting `newDetections`. -/
def scanDetections (pbuf : List PlasmaSample) (mbuf : List MagSample)
    (dets : List Detection) : List Detection :=
  (List.range pbuf.length).foldl (detStep pbuf mbuf dets) []

/-- `runDetection` from `app.js`: scan the buffer, append the new
detections to the log and truncate it to the most recent 100 (the log is
left untouched when nothing new fired); returns the new detections and
the updated state. -/
def runDetectionS (st : AppState) : List Detection × AppState :=
  let newDets := scanDetections st.plasma st.mag st.detections
  let dets' := if newDets.isEmpty then st.detections
    else takeLast 100 (st.detections ++ newDets)
  (newDets, { st with detections := dets' })

/-- The timestamp-keyed mag lookup of `pollNOAA`
(`new Map(magRows.map(m => [m.timeISO, m]))`): the last row with a given
`timeISO` wins. -/
def lookupMag (mRows : List MagSample) (t : String) : Option MagSample :=
  mRows.foldl (fun acc m => if m.timeISO = t then some m else acc) none

/-- The field row matched to a plasma row: exact-timestamp match, else a
null-valued row with the plasma row's timestamp. -/
def matchedMag (mRows : List MagSample) (t : String) : MagSample :=
  (lookupMag mRows t).getD { timeISO := t, bx := none, by_ := none, bz := none }

/-- One iteration of the `pollNOAA` append loop (`app.js` lines 216-222):
push the plasma row and its matched field row, then shift each buffer
while longer than `BUFFER_MAX`. -/
def pushEvict (pb : List PlasmaSample) (mb : List MagSample)
    (p : PlasmaSample) (m : MagSample) : List PlasmaSample × List MagSample :=
  let pb1 := pb ++ [p]
  let mb1 := mb ++ [m]
  (if BUFFER_MAX < pb1.length then pb1.drop 1 else pb1,
   if BUFFER_MAX < mb1.length then mb1.drop 1 else mb1)

/-- The append-batch operation of `pollNOAA`: merge field rows to plasma
rows by exact timestamp and append pairwise with front eviction. -/
def appendBatch (pb : List PlasmaSample) (mb : List MagSample)
    (pRows : List PlasmaSample) (mRows : List MagSample) :
    List PlasmaSample × List MagSample :=
  pRows.foldl (fun st p => pushEvict st.1 st.2 p (matchedMag mRows p.timeISO))
    (pb, mb)

/-- The effective export limit (`app.js` line 295):
`Math.min(50000, Number(req.query.limit) || 1000)`; `none` models a
missing or non-numeric (`NaN`) query value, and `0` is falsy in JS, so
both default to 1000. -/
def effLimit (q : Option ℚ) : ℚ :=
  min 50000 (match q with
    | none => 1000
    | some x => if x = 0 then 1000 else x)

/-- The in-memory fallback of the export endpoint
(`detections.slice(-limit)`, `app.js` lines 313 and 353). -/
def exportFallbackRows (dets : List Detection) (limit : ℚ) : List Detection :=
  jsSlice dets (jsTrunc (-limit))

/-- The trailing window the spec describes for the anomaly check at
index `idx`: the non-null `field` values over positions
`[max(0, idx-60), idx)`. -/
def windowVals {α : Type} (arr : List α) (f : α → Option ℚ) (idx : ℕ) :
    List ℚ :=
  ((arr.take idx).drop (idx - 60)).filterMap f

/-- Mean of the trailing window. -/
def wMean {α : Type} (arr : List α) (f : α → Option ℚ) (idx : ℕ) : ℚ :=
  (windowVals arr f idx).sum / ((windowVals arr f idx).length : ℚ)

/-- Population variance of the trailing window. -/
def wVar {α : Type} (arr : List α) (f : α → Option ℚ) (idx : ℕ) : ℚ :=
  ((windowVals arr f idx).map (fun b => (b - wMean arr f idx) ^ 2)).sum /
    ((windowVals arr f idx).length : ℚ)

/-- Follows the spec's words (§4.3), for comparison with the source's
`ZData.triggered`: the spec floors the standard deviation at `1e-5`
(`std = max(sqrt(varPop), 1e-5)`) and triggers when `|z| > 3`; in
squared, rational form that is `(cur-mean)^2 > 9 * max varPop 1e-10`. -/
def spec_flooredTriggered (cur mean varPop : ℚ) : Bool :=
  decide ((cur - mean) ^ 2 > 9 * max varPop ((1 : ℚ) / 10 ^ 10))

/-! ### Concrete fixtures used by witnesses and counterexamples -/

/-- One-sample buffer for the spec's first rule example:
`speed=600, density=12, bz=-12`, no lookback, so `deltaV` is null. -/
def wP1 : List PlasmaSample := [⟨"t0", some 12, some 600, none⟩]
def wM1 : List MagSample := [⟨"t0", none, none, some (-12)⟩]

/-- 31-sample buffer for the spec's second rule example: speed 300 at
index 0, nulls between, and `speed=450, density=3, bz=-2` at index 30
(so `deltaV = 150` there). -/
def p7 : List PlasmaSample :=
  ⟨"p0", none, some 300, none⟩ ::
    ((List.range 29).map (fun k => ⟨"q" ++ toString k, none, none, none⟩)) ++
    [⟨"t30", some 3, some 450, none⟩]
def m7 : List MagSample :=
  ((List.range 30).map (fun k => ⟨"r" ++ toString k, none, none, none⟩)) ++
    [⟨"t30", none, none, some (-2)⟩]

/-- Like `p7` but with a null speed at index 0: the lookback speed for
index 30 is null. -/
def p3 : List PlasmaSample :=
  ⟨"p0", none, none, none⟩ ::
    ((List.range 29).map (fun k => ⟨"q" ++ toString k, none, none, none⟩)) ++
    [⟨"t30", some 3, some 450, none⟩]

/-- A detection record with a given id and inert payload, for seeding
detection-log states. -/
def mkDummy (s : String) : Detection :=
  ⟨s, s, 0, 0, 0, none, none, "Nominal", none, 0, 0, "Nominal", "info",
   ⟨false, false, false, [], false⟩⟩

/-- Two firing samples with distinct ids `A_600` and `B_700`. -/
def p4 : List PlasmaSample :=
  [⟨"A", some 12, some 600, none⟩, ⟨"B", some 12, some 700, none⟩]
def m4 : List MagSample :=
  [⟨"A", none, none, some (-12)⟩, ⟨"B", none, none, some (-12)⟩]

/-- A full 100-entry detection log whose oldest entry has id `A_600`. -/
def log4 : List Detection :=
  mkDummy "A_600" :: (List.range 99).map (fun k => mkDummy ("f" ++ toString k))

def st4 : AppState := ⟨p4, m4, log4⟩

/-- Nine-sample buffer whose trailing speed window for index 8 is seven
zeros and one `1e-6` and whose current speed is `1e-5`: the population
standard deviation is tiny but nonzero. -/
def p5 : List PlasmaSample :=
  ((List.range 7).map (fun k => ⟨"z" ++ toString k, none, some 0, none⟩)) ++
    [⟨"z7", none, some (1 / 1000000), none⟩,
     ⟨"z8", none, some (1 / 100000), none⟩]

/-- A three-entry detection log. -/
def dets3 : List Detection := [mkDummy "0", mkDummy "1", mkDummy "2"]

/-- One-sample aligned starting buffers for the C2 witness. -/
def wPb : List PlasmaSample := [⟨"a", none, some 1, none⟩]
def wMb : List MagSample := [⟨"a", none, none, none⟩]

/-- The state for the C4 witness: one firing sample, empty log. -/
def stW : AppState := ⟨wP1, wM1, []⟩

/-- The `ZData` the code computes for the speed metric of `p5` at
index 8. -/
def zd5 : ZData := ⟨1/100000, 1/8000000, 7/(64 * 10 ^ 12)⟩

/-! ### Helper lemmas -/

/-- The CME rule as a proposition: unfolds the boolean combination of
`runDetection`'s four conditions. -/
lemma isCME_iff (sp den bzv : ℚ) (dv : Option ℚ) :
    isCME sp den bzv dv = true ↔
      ((∃ v, dv = some v ∧ v > 100) ∧ (sp > 500 ∨ den > 10)) ∨
      (sp > 500 ∧ den > 10 ∧ bzv < -10) := by
  cases dv with
  | none =>
    simp [isCME, condDeltaV, speed_high, density_high, bz_south, and_assoc]
  | some v =>
    simp [isCME, condDeltaV, speed_high, density_high, bz_south, deltaV_min,
      and_assoc]

/-- Under the non-null guards, `candidateAt` produces a record exactly
when the CME rule fires. -/
lemma candidateAt_isSome_eq (pbuf : List PlasmaSample) (mbuf : List MagSample)
    (i : ℕ) (p : PlasmaSample) (m : MagSample) (sp den bzv : ℚ)
    (hp : pbuf.get? i = some p) (hm : mbuf.get? i = some m)
    (hsp : p.speed = some sp) (hden : p.density = some den)
    (hbz : m.bz = some bzv) :
    (candidateAt pbuf mbuf i).isSome =
      isCME sp den bzv (deltaVAt pbuf sp i DELTA_WINDOW) := by
  unfold candidateAt
  rw [hp, hm]
  simp only [hsp, hden, hbz]
  cases h : isCME sp den bzv (deltaVAt pbuf sp i DELTA_WINDOW) <;> simp [h]

/-! ### C1 -/

/-- C1: at any buffer index where speed, density and bz are all non-null,
`runDetection` creates a CME candidate iff
`(shock AND (highSpeed OR highDensity)) OR
 (highSpeed AND highDensity AND southBz)`, with `highSpeed = speed > 500`,
`highDensity = density > 10`, `southBz = bz < -10`, and
`shock = deltaV != null AND deltaV > 100`. -/
theorem candidate_iff_rule (pbuf : List PlasmaSample) (mbuf : List MagSample)
    (i : ℕ) (p : PlasmaSample) (m : MagSample) (sp den bzv : ℚ)
    (hp : pbuf.get? i = some p) (hm : mbuf.get? i = some m)
    (hsp : p.speed = some sp) (hden : p.density = some den)
    (hbz : m.bz = some bzv) :
    (candidateAt pbuf mbuf i).isSome = true ↔
      ((∃ v, deltaVAt pbuf sp i DELTA_WINDOW = some v ∧ v > 100) ∧
        (sp > 500 ∨ den > 10)) ∨
      (sp > 500 ∧ den > 10 ∧ bzv < -10) := by
  rw [candidateAt_isSome_eq pbuf mbuf i p m sp den bzv hp hm hsp hden hbz]
  exact isCME_iff sp den bzv (deltaVAt pbuf sp i DELTA_WINDOW)

/-- Witness for C1: the spec's sample `speed=600, density=12, bz=-12`
with null `deltaV` (no lookback at index 0) fires via the second
disjunct. -/
theorem candidate_iff_rule_witness : (candidateAt wP1 wM1 0).isSome = true :=
  (candidate_iff_rule wP1 wM1 0 _ _ 600 12 (-12) rfl rfl rfl rfl rfl).mpr
    (Or.inr (by norm_num))

/-! ### C6 -/

/-- C6: the forecaster returns the empty list on empty input, and on
input `x :: rest` it returns `steps` values that are all equal to
`round s` where `s` is the EWMA fold seeded with the first element. -/
theorem ewma_forecast_const (arr : List ℚ) (alpha : ℚ) (steps : ℕ) :
    (arr = [] → simpleEwmaForecast arr alpha steps = []) ∧
    (∀ x rest, arr = x :: rest →
      (simpleEwmaForecast arr alpha steps).length = steps ∧
      ∀ y ∈ simpleEwmaForecast arr alpha steps,
        y = jsRound (rest.foldl (fun s v => alpha * v + (1 - alpha) * s) x)) := by
  constructor
  · intro h; subst h; rfl
  · intro x rest h; subst h
    have hrepl : simpleEwmaForecast (x :: rest) alpha steps =
        List.replicate steps
          (jsRound (rest.foldl (fun s v => alpha * v + (1 - alpha) * s) x)) :=
      rfl
    constructor
    · rw [hrepl, List.length_replicate]
    · intro y hy
      rw [hrepl] at hy
      exact List.eq_of_mem_replicate hy

/-- Witness for C6 at the spec's example `[10,20,30]`, `alpha=1/4`,
`steps=3`: three values, all equal to the same rounded EWMA. -/
theorem ewma_forecast_const_witness :
    (simpleEwmaForecast [10, 20, 30] (1/4) 3).length = 3 ∧
    ∀ y ∈ simpleEwmaForecast [10, 20, 30] (1/4) 3,
      y = jsRound ([(20 : ℚ), 30].foldl (fun s v => 1/4 * v + (1 - 1/4) * s) 10) :=
  (ewma_forecast_const [10, 20, 30] (1/4) 3).2 10 [20, 30] rfl

/-! ### C7 -/

/-- Counterexample to C7: on the spec's own scenario (31 samples, speed
300 at index 0; `speed=450, density=3, bz=-2` at index 30, so
`deltaV = 150` there) the scan produces no detection at all — the sample
does not fire. -/
theorem first_disjunct_example_cex :
    deltaVAt p7 450 30 DELTA_WINDOW = some 150 ∧
    candidateAt p7 m7 30 = none ∧
    (runDetectionS ⟨p7, m7, []⟩).1 = [] :=
  ⟨by with_unfolding_all rfl, by with_unfolding_all rfl,
   by with_unfolding_all rfl⟩

/-- C7 amended: with `speed=450, density=3, bz=-2, deltaV=150` the shock
condition holds but `highSpeed` and `highDensity` both fail, so neither
disjunct holds and the rule does not fire. -/
theorem first_disjunct_example_amended :
    condDeltaV (some 150) = true ∧
    decide ((450 : ℚ) > speed_high) = false ∧
    decide ((3 : ℚ) > density_high) = false ∧
    decide ((-2 : ℚ) < bz_south) = false ∧
    isCME 450 3 (-2) (some 150) = false :=
  ⟨by with_unfolding_all rfl, by with_unfolding_all rfl,
   by with_unfolding_all rfl, by with_unfolding_all rfl,
   by with_unfolding_all rfl⟩

/-! ### C8 -/

/-- Counterexample to C8: with a non-empty plasma batch but an empty
field batch, append-batch does have a side effect — the plasma row is
appended, paired with a null-valued field row. -/
theorem appendBatch_empty_field_cex :
    appendBatch [] [] [⟨"x", some 1, some 2, none⟩] [] =
      ([⟨"x", some 1, some 2, none⟩], [⟨"x", none, none, none⟩]) := by
  with_unfolding_all rfl

/-- C8 amended: append-batch has no side effect when the plasma row list
is empty (an empty field row list alone does not prevent appending:
plasma rows are appended with null-valued field rows, as the
counterexample shows). -/
theorem appendBatch_empty_plasma (pb : List PlasmaSample)
    (mb : List MagSample) (mRows : List MagSample) :
    appendBatch pb mb [] mRows = (pb, mb) := rfl

/-! ### C2 -/

/-- C2: starting from aligned buffers within capacity, append-batch
leaves the plasma and mag sequences with equal length, at most
`BUFFER_MAX = 3000`, and both sequences are a common-offset suffix of
the old contents followed by the appended rows — the oldest entries of
both are evicted together, preserving index alignment.  Since the
conclusion re-establishes the hypotheses, this holds after every
sequence of append-batch operations. -/
theorem buffer_append_invariant (pRows : List PlasmaSample)
    (mRows : List MagSample) :
    ∀ (pb : List PlasmaSample) (mb : List MagSample),
      pb.length = mb.length → pb.length ≤ BUFFER_MAX →
      (appendBatch pb mb pRows mRows).1.length =
        (appendBatch pb mb pRows mRows).2.length ∧
      (appendBatch pb mb pRows mRows).1.length ≤ BUFFER_MAX ∧
      ∃ d, (appendBatch pb mb pRows mRows).1 = (pb ++ pRows).drop d ∧
        (appendBatch pb mb pRows mRows).2 =
          (mb ++ pRows.map (fun p => matchedMag mRows p.timeISO)).drop d := by
  induction pRows with
  | nil =>
    intro pb mb hlen hcap
    exact ⟨hlen, hcap, 0, by simp [appendBatch], by simp [appendBatch]⟩
  | cons p rest ih =>
    intro pb mb hlen hcap
    have hstep : appendBatch pb mb (p :: rest) mRows =
        appendBatch (pushEvict pb mb p (matchedMag mRows p.timeISO)).1
          (pushEvict pb mb p (matchedMag mRows p.timeISO)).2 rest mRows := rfl
    have hpush : ∃ e, e ≤ (pb ++ [p]).length ∧
        (pushEvict pb mb p (matchedMag mRows p.timeISO)).1 = (pb ++ [p]).drop e ∧
        (pushEvict pb mb p (matchedMag mRows p.timeISO)).2 =
          (mb ++ [matchedMag mRows p.timeISO]).drop e ∧
        (pushEvict pb mb p (matchedMag mRows p.timeISO)).1.length =
          (pushEvict pb mb p (matchedMag mRows p.timeISO)).2.length ∧
        (pushEvict pb mb p (matchedMag mRows p.timeISO)).1.length ≤ BUFFER_MAX := by
      by_cases hc : BUFFER_MAX < pb.length + 1
      · have hcm : BUFFER_MAX < mb.length + 1 := by omega
        have e1 : (pushEvict pb mb p (matchedMag mRows p.timeISO)).1 =
            (pb ++ [p]).drop 1 := by
          simp only [pushEvict]
          rw [if_pos (by simpa using hc)]
        have e2 : (pushEvict pb mb p (matchedMag mRows p.timeISO)).2 =
            (mb ++ [matchedMag mRows p.timeISO]).drop 1 := by
          simp only [pushEvict]
          rw [if_pos (by simpa using hcm)]
        refine ⟨1, by simp, e1, e2, ?_, ?_⟩
        · rw [e1, e2]; simp [hlen]
        · rw [e1]; simp; omega
      · have hcm : ¬ BUFFER_MAX < mb.length + 1 := by omega
        have e1 : (pushEvict pb mb p (matchedMag mRows p.timeISO)).1 =
            (pb ++ [p]).drop 0 := by
          simp only [pushEvict, List.drop_zero]
          rw [if_neg (by simpa using hc)]
        have e2 : (pushEvict pb mb p (matchedMag mRows p.timeISO)).2 =
            (mb ++ [matchedMag mRows p.timeISO]).drop 0 := by
          simp only [pushEvict, List.drop_zero]
          rw [if_neg (by simpa using hcm)]
        refine ⟨0, by simp, e1, e2, ?_, ?_⟩
        · rw [e1, e2]; simp [hlen]
        · rw [e1]; simp; omega
    obtain ⟨e, he, hp1, hm1, hlen1, hcap1⟩ := hpush
    obtain ⟨h1, h2, d, hd1, hd2⟩ :=
      ih (pushEvict pb mb p (matchedMag mRows p.timeISO)).1
        (pushEvict pb mb p (matchedMag mRows p.timeISO)).2 hlen1 hcap1
    rw [hstep]
    refine ⟨h1, h2, e + d, ?_, ?_⟩
    · rw [hd1, hp1, ← List.drop_append_of_le_length he, List.drop_drop]
      simp
    · rw [hd2, hm1,
        ← List.drop_append_of_le_length (by simpa [hlen] using he),
        List.drop_drop]
      simp

/-- Witness for C2: a concrete append of one row onto aligned one-sample
buffers. -/
theorem buffer_append_invariant_witness :
    (appendBatch wPb wMb wP1 wM1).1.length =
      (appendBatch wPb wMb wP1 wM1).2.length ∧
    (appendBatch wPb wMb wP1 wM1).1.length ≤ BUFFER_MAX ∧
    ∃ d, (appendBatch wPb wMb wP1 wM1).1 = (wPb ++ wP1).drop d ∧
      (appendBatch wPb wMb wP1 wM1).2 =
        (wMb ++ wP1.map (fun p => matchedMag wM1 p.timeISO)).drop d :=
  buffer_append_invariant wP1 wM1 wPb wMb rfl (by norm_num [wPb, BUFFER_MAX])

/-! ### C3 -/

/-- Counterexample to C3: in `p3` the lookback sample (index 0) has a
null speed, yet `deltaV` at index 30 is not null — the JS subtraction
coerces the null stored speed to 0, giving `deltaV = speed = 450`. -/
theorem deltaV_null_lookback_cex :
    (p3.get? 0).bind PlasmaSample.speed = none ∧
    (p3.get? 30).bind PlasmaSample.speed = some 450 ∧
    deltaVAt p3 450 30 DELTA_WINDOW = some 450 :=
  ⟨by with_unfolding_all rfl, by with_unfolding_all rfl,
   by with_unfolding_all rfl⟩

/-- C3 amended: for an in-range index `i`, `deltaV` is
`speed[i] - speed[i-30]` with a null `speed[i-30]` coerced to 0 (so it
equals `speed[i]` in that case) whenever `i ≥ 30`, and is null exactly
when `i < 30`. -/
theorem deltaV_amended (buf : List PlasmaSample) (sp : ℚ) (i : ℕ)
    (h : i < buf.length) :
    deltaVAt buf sp i DELTA_WINDOW =
      if DELTA_WINDOW ≤ i then
        some (sp - (((buf.get? (i - DELTA_WINDOW)).bind PlasmaSample.speed).getD 0))
      else none := by
  unfold deltaVAt
  by_cases h30 : DELTA_WINDOW ≤ i
  · rw [if_pos h30, if_pos h30]
    cases hq : buf.get? (i - DELTA_WINDOW) with
    | none =>
      have := List.get?_eq_none.mp hq
      omega
    | some q => simp
  · rw [if_neg h30, if_neg h30]

/-- Witness for C3's amended statement at the concrete buffer `p3` and
index 30. -/
theorem deltaV_amended_witness :
    deltaVAt p3 450 30 DELTA_WINDOW =
      if DELTA_WINDOW ≤ 30 then
        some (450 - (((p3.get? (30 - DELTA_WINDOW)).bind PlasmaSample.speed).getD 0))
      else none :=
  deltaV_amended p3 450 30 (by simp [p3])

/-! ### C4 -/

/-- Counterexample to C4: on the state `st4` (two firing samples; a full
100-entry log whose oldest entry carries the first sample's id) the
first scan creates `B_700`, the log truncation to 100 entries evicts the
retained `A_600`, and the second scan of the unchanged buffer creates
`A_600` anew — one new detection instead of zero. -/
theorem rescan_not_idempotent_cex :
    (runDetectionS st4).1.map Detection.id = ["B_700"] ∧
    (runDetectionS (runDetectionS st4).2).1.map Detection.id = ["A_600"] :=
  ⟨by with_unfolding_all rfl, by with_unfolding_all rfl⟩

/-- C4 amended: rescanning an unchanged buffer produces zero new
detections provided every candidate id the buffer fires is still present
in the detection log after the first run; the 100-entry log cap can
evict such an id (as in the counterexample), in which case the second
scan re-creates it.  The hypothesis holds in particular when the log
starts empty and at most 100 candidates fire. -/
theorem rescan_no_new (st : AppState)
    (h : ∀ i ∈ List.range st.plasma.length,
      ((candidateAt st.plasma st.mag i).all
        (fun d => (runDetectionS st).2.detections.any
          (fun e => e.id = d.id))) = true) :
    (runDetectionS (runDetectionS st).2).1 = [] := by
  have hfold : ∀ (is : List ℕ),
      (∀ i ∈ is, ((candidateAt st.plasma st.mag i).all
        (fun d => (runDetectionS st).2.detections.any
          (fun e => e.id = d.id))) = true) →
      is.foldl (detStep st.plasma st.mag (runDetectionS st).2.detections) [] = [] := by
    intro is
    induction is with
    | nil => intro _; rfl
    | cons i tl ih2 =>
      intro hall
      have hi := hall i (List.mem_cons_self i tl)
      rw [List.foldl_cons]
      have hstep : detStep st.plasma st.mag (runDetectionS st).2.detections [] i = [] := by
        unfold detStep
        cases hc : candidateAt st.plasma st.mag i with
        | none => rfl
        | some d =>
          rw [hc] at hi
          simp only [Option.all_some] at hi
          simp [hi]
      rw [hstep]
      exact ih2 fun j hj => hall j (List.mem_cons_of_mem i hj)
  exact hfold (List.range st.plasma.length) h

/-- Witness for C4's amended statement: after the sole candidate is
logged by the first run, a second run creates nothing. -/
theorem rescan_no_new_witness :
    (runDetectionS (runDetectionS stW).2).1 = [] :=
  rescan_no_new stW (of_decide_eq_true (by with_unfolding_all rfl))

/-! ### C9 -/

/-- Counterexample to C9: a negative export limit is not clamped — the
effective limit stays `-2`, and `detections.slice(-limit)` then drops
the two oldest entries instead of returning the at-most-limit most
recent ones (a clamped-to-default limit would return all three rows, as
the last conjunct shows). -/
theorem export_limit_cex :
    effLimit (some (-2)) = -2 ∧
    exportFallbackRows dets3 (effLimit (some (-2))) = [mkDummy "2"] ∧
    dets3.length = 3 ∧
    exportFallbackRows dets3 1000 = dets3 :=
  ⟨by with_unfolding_all rfl, by with_unfolding_all rfl,
   by with_unfolding_all rfl, by with_unfolding_all rfl⟩

/-- Slicing with a negated positive integer limit keeps the most recent
`k` rows (all rows when `k` exceeds the length). -/
lemma exportFallbackRows_natCast (dets : List Detection) (k : ℕ) (hk : 1 ≤ k) :
    exportFallbackRows dets ((k : ℕ) : ℚ) = dets.drop (dets.length - k) := by
  unfold exportFallbackRows jsSlice jsTrunc
  have hq : ¬ ((0 : ℚ) ≤ -(k : ℚ)) := by
    have : (1 : ℚ) ≤ (k : ℚ) := by exact_mod_cast hk
    linarith
  rw [if_neg hq]
  have htr : ⌈-((k : ℕ) : ℚ)⌉ = -(k : ℤ) := by
    rw [show (-((k : ℕ) : ℚ)) = (((-(k : ℤ)) : ℤ) : ℚ) by push_cast; ring]
    exact Int.ceil_intCast _
  rw [htr, if_pos (by omega)]
  congr 1
  omega

/-- C9 amended: the effective limit never exceeds 50,000, a missing or
non-numeric limit defaults to 1000, and for positive integer limits the
request is served with the at-most-limit most recent detections; but
negative limits pass through unclamped (counterexample above), yielding
all but the `|limit|` oldest detections instead. -/
theorem export_limit_amended :
    (∀ q : Option ℚ, effLimit q ≤ 50000) ∧
    effLimit none = 1000 ∧
    (∀ (n : ℕ) (dets : List Detection), 1 ≤ n →
      effLimit (some (n : ℚ)) = ((min 50000 n : ℕ) : ℚ) ∧
      exportFallbackRows dets ((min 50000 n : ℕ) : ℚ) =
        dets.drop (dets.length - min 50000 n)) := by
  refine ⟨?_, ?_, ?_⟩
  · intro q
    unfold effLimit
    exact min_le_left _ _
  · norm_num [effLimit]
  · intro n dets hn
    constructor
    · have h1 : effLimit (some (n : ℚ)) =
          min 50000 (if (n : ℚ) = 0 then 1000 else (n : ℚ)) := rfl
      rw [h1, if_neg (Nat.cast_ne_zero.mpr (by omega))]
      simp [Nat.cast_min]
    · exact exportFallbackRows_natCast dets (min 50000 n) (by omega)

/-- Witness for C9's amended statement at `n = 2` over the three-entry
log. -/
theorem export_limit_amended_witness :
    effLimit (some ((2 : ℕ) : ℚ)) = ((min 50000 2 : ℕ) : ℚ) ∧
    exportFallbackRows dets3 ((min 50000 2 : ℕ) : ℚ) =
      dets3.drop (dets3.length - min 50000 2) :=
  export_limit_amended.2.2 2 dets3 (by norm_num)

/-! ### C5 -/

/-- Scanning indices `[s, s+n)` of a list through `get?` and a nullable
field yields the same values as taking that segment of the list
directly. -/
lemma filterMap_range'_get? {α : Type} (arr : List α) (f : α → Option ℚ) :
    ∀ (n s : ℕ), (List.range' s n).filterMap (fun j => (arr.get? j).bind f) =
      ((arr.drop s).take n).filterMap f := by
  intro n
  induction n with
  | zero => intro s; simp
  | succ n ih =>
    intro s
    rw [List.range'_succ]
    cases harr : arr.drop s with
    | nil =>
      have hget : arr.get? s = none := by
        have h0 := List.get?_drop arr s 0
        rw [harr] at h0
        simpa using h0.symm
      have hdrop : arr.drop (s + 1) = [] := by
        have h1 := List.drop_drop 1 s arr
        rw [harr] at h1
        simpa using h1.symm
      rw [List.filterMap_cons]
      simp only [hget, Option.none_bind]
      rw [ih (s + 1), hdrop]
      simp
    | cons a t =>
      have hget : arr.get? s = some a := by
        have h0 := List.get?_drop arr s 0
        rw [harr] at h0
        simpa using h0.symm
      have hdrop : arr.drop (s + 1) = t := by
        have h1 := List.drop_drop 1 s arr
        rw [harr] at h1
        simpa using h1.symm
      rw [List.filterMap_cons, List.take_succ_cons, List.filterMap_cons]
      simp only [hget, Option.some_bind]
      rw [ih (s + 1), hdrop]

/-- The loop-collected values of `zCheck` are exactly the spec's trailing
window. -/
lemma zCheck_vals_eq_window {α : Type} (arr : List α) (f : α → Option ℚ)
    (idx : ℕ) :
    (List.range' (idx - 60) (idx - (idx - 60))).filterMap
      (fun j => (arr.get? j).bind f) = windowVals arr f idx := by
  rw [filterMap_range'_get?]
  unfold windowVals
  rw [List.drop_take]

/-- C5 amended: for each metric, `zCheck` yields no result when the
trailing window `[max(0, idx-60), idx)` holds fewer than 8 non-null
values; with at least 8 values and a non-null current value it yields
that value with the window's mean and population variance; a metric is
triggered exactly when `|z| > 3` for `z = (current - mean) / std`, where
`std` is the square root of the variance, substituted by `1e-5` only
when it is exactly zero (not floored to `1e-5`, see the counterexample);
and `isAnomaly` holds iff at least one of the three metrics
triggered. -/
theorem anomaly_z_spec :
    (∀ (α : Type) (arr : List α) (f : α → Option ℚ) (idx : ℕ),
      (windowVals arr f idx).length < 8 →
        zCheck arr f (idx - 60) idx = none) ∧
    (∀ (α : Type) (arr : List α) (f : α → Option ℚ) (idx : ℕ) (cur : ℚ),
      8 ≤ (windowVals arr f idx).length →
      (arr.get? idx).bind f = some cur →
      zCheck arr f (idx - 60) idx =
        some ⟨cur, wMean arr f idx, wVar arr f idx⟩) ∧
    (∀ d : ZData, 0 ≤ d.varPop →
      (d.triggered = true ↔
        3 < |((d.cur : ℝ) - (d.mean : ℝ))| /
          (if d.varPop = 0 then 1 / 100000 else Real.sqrt (d.varPop : ℝ)))) ∧
    (∀ (plasma : List PlasmaSample) (mag : List MagSample) (idx : ℕ),
      (detectAnomalyAt plasma mag idx).speed =
        ((zCheck plasma PlasmaSample.speed (idx - 60) idx).elim false
          ZData.triggered) ∧
      (detectAnomalyAt plasma mag idx).bz =
        ((zCheck mag MagSample.bz (idx - 60) idx).elim false
          ZData.triggered) ∧
      (detectAnomalyAt plasma mag idx).density =
        ((zCheck plasma PlasmaSample.density (idx - 60) idx).elim false
          ZData.triggered) ∧
      (detectAnomalyAt plasma mag idx).isAnomaly =
        ((detectAnomalyAt plasma mag idx).speed ||
         (detectAnomalyAt plasma mag idx).bz ||
         (detectAnomalyAt plasma mag idx).density)) := by
  refine ⟨?_, ?_, ?_, ?_⟩
  · intro α arr f idx hlen
    unfold zCheck
    rw [zCheck_vals_eq_window]
    rw [if_pos hlen]
  · intro α arr f idx cur h8 hcur
    unfold zCheck
    rw [zCheck_vals_eq_window, if_neg (not_lt.mpr h8), hcur]
    rfl
  · intro d hv
    rcases eq_or_lt_of_le hv with hv0 | hvpos
    · rw [if_pos hv0.symm]
      unfold ZData.triggered
      rw [if_pos hv0.symm, decide_eq_true_eq]
      have hcast : ((d.cur : ℝ) - (d.mean : ℝ)) = ((d.cur - d.mean : ℚ) : ℝ) := by
        push_cast; ring
      rw [lt_div_iff₀ (by norm_num : (0:ℝ) < 1 / 100000), hcast, ← Rat.cast_abs,
        show (3 : ℝ) * (1 / 100000) = ((3 / 10 ^ 5 : ℚ) : ℝ) by norm_num,
        Rat.cast_lt, gt_iff_lt,
        show ((9 : ℚ) / 10 ^ 10) = (3 / 10 ^ 5) ^ 2 by norm_num,
        ← sq_abs (d.cur - d.mean),
        pow_lt_pow_iff_left₀ (by norm_num) (abs_nonneg _) (by norm_num)]
    · rw [if_neg (ne_of_gt hvpos)]
      unfold ZData.triggered
      rw [if_neg (ne_of_gt hvpos)]
      rw [decide_eq_true_eq]
      have hsp : (0:ℝ) < Real.sqrt (d.varPop : ℝ) :=
        Real.sqrt_pos.mpr (by exact_mod_cast hvpos)
      rw [lt_div_iff₀ hsp]
      constructor
      · intro h
        have hR : (9 * d.varPop : ℚ) < (d.cur - d.mean) ^ 2 := h
        have hR2 : (9 : ℝ) * (d.varPop : ℝ) <
            ((d.cur : ℝ) - (d.mean : ℝ)) ^ 2 := by
          exact_mod_cast hR
        nlinarith [Real.sq_sqrt (by exact_mod_cast hv : (0:ℝ) ≤ (d.varPop : ℝ)),
          abs_nonneg ((d.cur : ℝ) - (d.mean : ℝ)), sq_abs ((d.cur : ℝ) - (d.mean : ℝ)),
          Real.sqrt_nonneg (d.varPop : ℝ)]
      · intro h
        have hR2 : (9 : ℝ) * (d.varPop : ℝ) <
            ((d.cur : ℝ) - (d.mean : ℝ)) ^ 2 := by
          nlinarith [Real.sq_sqrt (by exact_mod_cast hv : (0:ℝ) ≤ (d.varPop : ℝ)),
            sq_abs ((d.cur : ℝ) - (d.mean : ℝ)), Real.sqrt_nonneg (d.varPop : ℝ)]
        exact_mod_cast hR2
  · intro plasma mag idx
    have hiso : ∀ (a b c : Bool),
        (decide (0 < ((if a then [Metric.speed] else []) ++
          (if b then [Metric.bz] else []) ++
          (if c then [Metric.density] else [])).length)) = (a || b || c) := by
      decide
    refine ⟨?_, ?_, ?_, ?_⟩
    · cases hz : zCheck plasma PlasmaSample.speed (idx - 60) idx <;>
        simp [detectAnomalyAt, hz]
    · cases hz : zCheck mag MagSample.bz (idx - 60) idx <;>
        simp [detectAnomalyAt, hz]
    · cases hz : zCheck plasma PlasmaSample.density (idx - 60) idx <;>
        simp [detectAnomalyAt, hz]
    · simp only [detectAnomalyAt]
      generalize (match zCheck plasma PlasmaSample.speed (idx - 60) idx with
        | some d => d.triggered | none => false) = a
      generalize (match zCheck mag MagSample.bz (idx - 60) idx with
        | some d => d.triggered | none => false) = b
      generalize (match zCheck plasma PlasmaSample.density (idx - 60) idx with
        | some d => d.triggered | none => false) = c
      exact hiso a b c


/-- Counterexample to C5: in `p5` the speed window at index 8 has a
tiny but nonzero standard deviation (variance `7e-12/64`, std about
`3.3e-7`); the code triggers the speed metric, but under the claimed
flooring of the standard deviation to `1e-5` the very same
current/mean/variance would not trigger. -/
theorem anomaly_floor_cex :
    zCheck p5 PlasmaSample.speed (8 - 60) 8 = some zd5 ∧
    (detectAnomalyAt p5 [] 8).speed = true ∧
    (detectAnomalyAt p5 [] 8).isAnomaly = true ∧
    spec_flooredTriggered zd5.cur zd5.mean zd5.varPop = false :=
  ⟨by with_unfolding_all rfl, by with_unfolding_all rfl,
   by with_unfolding_all rfl, by with_unfolding_all rfl⟩

/-- Witness for C5's amended statement: the window characterization at
the concrete buffer `p5`, and the `|z| > 3` reading of the trigger at
the concrete `ZData` the code computes there. -/
theorem anomaly_z_spec_witness :
    zCheck p5 PlasmaSample.speed (8 - 60) 8 =
      some ⟨1/100000, wMean p5 PlasmaSample.speed 8, wVar p5 PlasmaSample.speed 8⟩ ∧
    (zd5.triggered = true ↔
      3 < |((zd5.cur : ℝ) - (zd5.mean : ℝ))| /
        (if zd5.varPop = 0 then 1 / 100000 else Real.sqrt (zd5.varPop : ℝ))) :=
  ⟨anomaly_z_spec.2.1 PlasmaSample p5 PlasmaSample.speed 8 (1/100000)
      (of_decide_eq_true (by with_unfolding_all rfl))
      (by with_unfolding_all rfl),
   anomaly_z_spec.2.2.1 zd5 (by norm_num [zd5])⟩

/-! ### C10 -/

/-- C10: a rule scan (as run by the poll loop and the on-demand detect
endpoint) never changes the plasma or mag buffer; only the detection log
component of the state is updated. -/
theorem scan_preserves_buffers (st : AppState) :
    (runDetectionS st).2.plasma = st.plasma ∧
    (runDetectionS st).2.mag = st.mag :=
  ⟨rfl, rfl⟩

end CME
